import Mathlib

/-!
Verification of the supervsr backend's live-stream ingestion and analysis
pipeline against its specification.  Each Python function that a claim touches
is shallowly embedded as an executable Lean definition; external collaborators
(the GCS client, the Gemini SDK, `json.loads`, the wall clock, the filesystem)
are modelled as explicit parameters or oracle records, exactly as the source
consumes them.
-/

/-! ## JSON values

Python dicts produced by `json.loads` are modelled as association lists with
distinct keys (Python collapses duplicate keys); membership and lookup use the
first matching key. -/

inductive Json where
  | null : Json
  | str (s : String) : Json
  | num (n : Int) : Json
  | bool (b : Bool) : Json
  | arr (xs : List Json) : Json
  | obj (fields : List (String × Json)) : Json

/-- Lookup of a key in a JSON object's field list (Python `dict[key]` /
`key in dict`). -/
def lookupField : List (String × Json) → String → Option Json
  | [], _ => none
  | (k, v) :: rest, key => if k = key then some v else lookupField rest key

theorem sizeOf_lookupField {fields : List (String × Json)} {key : String}
    {v : Json} (h : lookupField fields key = some v) : sizeOf v < sizeOf fields := by
  induction fields with
  | nil => simp [lookupField] at h
  | cons kv rest ih =>
    obtain ⟨k, w⟩ := kv
    simp only [lookupField] at h
    by_cases hk : k = key
    · simp [hk] at h
      subst h
      simp
      omega
    · simp [hk] at h
      have := ih h
      simp
      omega

/-! ## C9: `validate_structured_output` (src/api/routes/sop_routes.py)

Faithful embedding of the recursive schema validator.  It returns the pair
`(is_valid, error)` just like the Python function. -/

def valid_schema_types : List String := ["string", "number", "boolean", "array", "object"]

/-- Python `schema["type"] not in valid_types`: the value is in the list iff it
is a string equal to one of the five names. -/
def typeIsValid : Json → Bool
  | .str s => valid_schema_types.contains s
  | _ => false

/-- Python `req_field not in schema["properties"]`: dict membership hashes the
key first.  A string entry matches iff it equals one of the property names; a
number, boolean or `None` entry is hashable but never equals a string key, so
it is simply not found; a JSON array or object entry is unhashable, so the
membership test raises an uncaught `TypeError` — modelled as `none`. -/
def requiredPresent (props : List (String × Json)) : Json → Option Bool
  | .str s => some (props.any (fun kv => kv.1 = s))
  | .num _ => some false
  | .bool _ => some false
  | .null => some false
  | .arr _ => none
  | .obj _ => none

/-- The `required` loop of the validator: the first missing entry returns the
rejection; an unhashable entry reached before that raises (`none`). -/
def checkRequired (props : List (String × Json)) : List Json → Option (Bool × Option String)
  | [] => some (true, none)
  | r :: rest =>
    match requiredPresent props r with
    | none => none
    | some present =>
      if present then checkRequired props rest
      else some (false, some "Required field not found in properties")

mutual

/-- Embedding of `validate_structured_output` from src/api/routes/sop_routes.py.
It returns `some (is_valid, error)` for the Python function's return value;
`none` models the uncaught `TypeError` raised when a `required` entry is
unhashable (a JSON array or object), which nothing in the function catches and
which propagates through the recursive calls.  `None` is accepted outright;
non-dict values are rejected; a dict must carry a valid `type`; `object` nodes
need a dict `properties` whose values validate recursively and an optional
`required` list naming only property keys; `array` nodes need a recursively
valid `items`. -/
def validate_structured_output : Json → Option (Bool × Option String)
  | .null => some (true, none)
  | .obj fields =>
    match lookupField fields "type" with
    | none => some (false, some "Schema must have a type field")
    | some t =>
      if typeIsValid t then
        match t with
        | .str "object" =>
          match hprops : lookupField fields "properties" with
          | none => some (false, some "Object type must have properties field")
          | some (.obj props) =>
            match validateProperties props with
            | none => none
            | some (false, e) => some (false, e)
            | some (true, _) =>
              match lookupField fields "required" with
              | none => some (true, none)
              | some (.arr reqs) => checkRequired props reqs
              | some _ => some (false, some "required must be a list")
          | some _ => some (false, some "properties must be a JSON object")
        | .str "array" =>
          match hitems : lookupField fields "items" with
          | none => some (false, some "Array type must have items field")
          | some it =>
            match validate_structured_output it with
            | none => none
            | some (false, e) => some (false, some ("Invalid array items: " ++ e.getD ""))
            | some (true, _) => some (true, none)
        | _ => some (true, none)
      else some (false, some "Invalid type")
  | _ => some (false, some "Schema must be a JSON object")
termination_by j => sizeOf j
decreasing_by
  · have h1 := sizeOf_lookupField hprops
    simp at h1 ⊢
    omega
  · have h1 := sizeOf_lookupField hitems
    simp at h1 ⊢
    omega

/-- The `for prop_name, prop_schema in schema["properties"].items()` loop; a
raise in a nested validation propagates. -/
def validateProperties : List (String × Json) → Option (Bool × Option String)
  | [] => some (true, none)
  | (_, v) :: rest =>
    match validate_structured_output v with
    | none => none
    | some (false, e) => some (false, some ("Invalid property: " ++ e.getD ""))
    | some (true, _) => validateProperties rest
termination_by l => sizeOf l
decreasing_by
  all_goals simp_wf <;> omega

end

/-! Spec-side predicates for C9.  `claimSchemaOK` renders the claim's sentence
verbatim: a value is accepted iff every node has a `type` drawn from the five
names, every object node has a `properties` map with recursively valid values
and a `required` list (when present) naming only property keys, and every
array node has recursively valid `items`.  `amendedSchemaOK` is the amended
predicate: identical except that a `null` node (anywhere) is also accepted,
mirroring the validator's `if schema is None: return True` short-circuit. -/

/-- The `type` field of a schema node, when it is a string. -/
def schemaType (fields : List (String × Json)) : Option String :=
  match lookupField fields "type" with
  | some (.str s) => some s
  | _ => none

/-- A `required` entry is a string naming one of the property keys. -/
def reqNamesProp (props : List (String × Json)) : Json → Bool
  | .str s => props.any (fun kv => kv.1 = s)
  | _ => false

/-- The claim's acceptance predicate, rendered from the spec's words (no
allowance for `null` nodes: a `null` has no `type`, so it must be rejected). -/
def claimSchemaOK : Json → Bool
  | .obj fields =>
    match schemaType fields with
    | none => false
    | some t =>
      valid_schema_types.contains t &&
      (if t = "object" then
        match hp : lookupField fields "properties" with
        | some (.obj props) =>
          props.attach.all (fun kv => claimSchemaOK kv.1.2) &&
          (match lookupField fields "required" with
           | none => true
           | some (.arr reqs) => reqs.all (reqNamesProp props)
           | some _ => false)
        | _ => false
       else true) &&
      (if t = "array" then
        match hi : lookupField fields "items" with
        | some it => claimSchemaOK it
        | none => false
       else true)
  | _ => false
termination_by j => sizeOf j
decreasing_by
  · obtain ⟨⟨k0, v0⟩, hm⟩ := kv
    have h1 := List.sizeOf_lt_of_mem hm
    have h2 := sizeOf_lookupField hp
    simp at h1 h2 ⊢
    omega
  · have h1 := sizeOf_lookupField hi
    simp at h1 ⊢
    omega

/-- The amended acceptance predicate: the claim's rules, except that a `null`
node anywhere is accepted outright. -/
def amendedSchemaOK : Json → Bool
  | .null => true
  | .obj fields =>
    match schemaType fields with
    | none => false
    | some t =>
      valid_schema_types.contains t &&
      (if t = "object" then
        match hp : lookupField fields "properties" with
        | some (.obj props) =>
          props.attach.all (fun kv => amendedSchemaOK kv.1.2) &&
          (match lookupField fields "required" with
           | none => true
           | some (.arr reqs) => reqs.all (reqNamesProp props)
           | some _ => false)
        | _ => false
       else true) &&
      (if t = "array" then
        match hi : lookupField fields "items" with
        | some it => amendedSchemaOK it
        | none => false
       else true)
  | _ => false
termination_by j => sizeOf j
decreasing_by
  · obtain ⟨⟨k0, v0⟩, hm⟩ := kv
    have h1 := List.sizeOf_lt_of_mem hm
    have h2 := sizeOf_lookupField hp
    simp at h1 h2 ⊢
    omega
  · have h1 := sizeOf_lookupField hi
    simp at h1 ⊢
    omega

/-! Computation lemmas for the two recursive functions, used to drive the
case analysis of the main C9 characterisation. -/

theorem all_attach_eq {α : Type} (l : List α) (f : α → Bool) :
    (l.attach.all fun x => f x.1) = l.all f := by
  rw [List.all_eq, List.all_eq]; simp

theorem all_attach_snd (l : List (String × Json)) (f : Json → Bool) :
    (l.attach.all fun kv => f kv.1.2) = l.all (fun kv => f kv.2) := by
  rw [List.all_eq, List.all_eq]; simp

theorem requiredPresent_getD (props : List (String × Json)) (j : Json) :
    (requiredPresent props j).getD false = reqNamesProp props j := by
  cases j <;> rfl

theorem requiredPresent_none {props : List (String × Json)} {j : Json}
    (h : requiredPresent props j = none) : reqNamesProp props j = false := by
  cases j <;> simp_all [requiredPresent, reqNamesProp]

theorem checkRequired_fst (props : List (String × Json)) (reqs : List Json) :
    ((checkRequired props reqs).map (fun r => r.1)).getD false =
      reqs.all (reqNamesProp props) := by
  induction reqs with
  | nil => rfl
  | cons r rest ih =>
    rw [checkRequired]
    cases hreq : requiredPresent props r with
    | none => simp [requiredPresent_none hreq]
    | some present =>
      have := requiredPresent_getD props r
      rw [hreq] at this
      simp only [Option.getD_some] at this
      cases present with
      | true => simpa [← this] using ih
      | false => simp [← this]

theorem checkRequired_err (props : List (String × Json)) (reqs : List Json) :
    (checkRequired props reqs).map (fun r => r.2.isSome) =
      (checkRequired props reqs).map (fun r => !r.1) := by
  induction reqs with
  | nil => rfl
  | cons r rest ih =>
    rw [checkRequired]
    cases hreq : requiredPresent props r with
    | none => rfl
    | some present =>
      cases present with
      | true => simpa using ih
      | false => rfl

theorem validate_null : validate_structured_output Json.null = some (true, none) := by
  simp [validate_structured_output]

theorem validate_no_type {fields : List (String × Json)}
    (h : lookupField fields "type" = none) :
    validate_structured_output (Json.obj fields) =
      some (false, some "Schema must have a type field") := by
  rw [validate_structured_output]
  simp [h]

theorem validate_bad_type {fields : List (String × Json)} {t : Json}
    (ht : lookupField fields "type" = some t) (hv : typeIsValid t = false) :
    validate_structured_output (Json.obj fields) = some (false, some "Invalid type") := by
  rw [validate_structured_output]
  simp [ht, hv]

theorem validate_obj_no_props {fields : List (String × Json)}
    (ht : lookupField fields "type" = some (Json.str "object"))
    (hp : lookupField fields "properties" = none) :
    validate_structured_output (Json.obj fields) =
      some (false, some "Object type must have properties field") := by
  rw [validate_structured_output]
  simp [ht, typeIsValid, valid_schema_types]
  split
  · rfl
  · simp_all
  · simp_all

theorem validate_obj_props_nonobj {fields : List (String × Json)} {p : Json}
    (ht : lookupField fields "type" = some (Json.str "object"))
    (hp : lookupField fields "properties" = some p)
    (hno : ∀ l, p ≠ Json.obj l) :
    validate_structured_output (Json.obj fields) =
      some (false, some "properties must be a JSON object") := by
  rw [validate_structured_output]
  simp [ht, typeIsValid, valid_schema_types]
  split
  · simp_all
  · rename_i props heq
    rw [hp] at heq
    cases heq
    exact absurd rfl (hno props)
  · rfl

theorem validate_obj_props_bad {fields props : List (String × Json)} {e : Option String}
    (ht : lookupField fields "type" = some (Json.str "object"))
    (hp : lookupField fields "properties" = some (Json.obj props))
    (hv : validateProperties props = some (false, e)) :
    validate_structured_output (Json.obj fields) = some (false, e) := by
  rw [validate_structured_output]
  simp [ht, typeIsValid, valid_schema_types]
  split
  · simp_all
  · rename_i props2 heq
    rw [hp] at heq
    cases heq
    simp [hv]
  · simp_all

theorem validate_obj_props_raise {fields props : List (String × Json)}
    (ht : lookupField fields "type" = some (Json.str "object"))
    (hp : lookupField fields "properties" = some (Json.obj props))
    (hv : validateProperties props = none) :
    validate_structured_output (Json.obj fields) = none := by
  rw [validate_structured_output]
  simp [ht, typeIsValid, valid_schema_types]
  split
  · simp_all
  · rename_i props2 heq
    rw [hp] at heq
    cases heq
    simp [hv]
  · simp_all

theorem validate_obj_ok_noreq {fields props : List (String × Json)} {s2 : Option String}
    (ht : lookupField fields "type" = some (Json.str "object"))
    (hp : lookupField fields "properties" = some (Json.obj props))
    (hv : validateProperties props = some (true, s2))
    (hr : lookupField fields "required" = none) :
    validate_structured_output (Json.obj fields) = some (true, none) := by
  rw [validate_structured_output]
  simp [ht, typeIsValid, valid_schema_types]
  split
  · simp_all
  · rename_i props2 heq
    rw [hp] at heq
    cases heq
    simp [hv, hr]
  · simp_all

theorem validate_obj_req_arr {fields props : List (String × Json)} {s2 : Option String}
    {reqs : List Json}
    (ht : lookupField fields "type" = some (Json.str "object"))
    (hp : lookupField fields "properties" = some (Json.obj props))
    (hv : validateProperties props = some (true, s2))
    (hr : lookupField fields "required" = some (Json.arr reqs)) :
    validate_structured_output (Json.obj fields) = checkRequired props reqs := by
  rw [validate_structured_output]
  simp [ht, typeIsValid, valid_schema_types]
  split
  · simp_all
  · rename_i props2 heq
    rw [hp] at heq
    cases heq
    simp [hv, hr]
  · simp_all

theorem validate_obj_req_bad {fields props : List (String × Json)} {s2 : Option String}
    {r : Json}
    (ht : lookupField fields "type" = some (Json.str "object"))
    (hp : lookupField fields "properties" = some (Json.obj props))
    (hv : validateProperties props = some (true, s2))
    (hr : lookupField fields "required" = some r)
    (hno : ∀ xs, r ≠ Json.arr xs) :
    validate_structured_output (Json.obj fields) =
      some (false, some "required must be a list") := by
  rw [validate_structured_output]
  simp [ht, typeIsValid, valid_schema_types, hr]
  split
  · simp_all
  · rename_i props2 heq
    rw [hp] at heq
    cases heq
    simp [hv]
  · simp_all

theorem validate_arr_no_items {fields : List (String × Json)}
    (ht : lookupField fields "type" = some (Json.str "array"))
    (hi : lookupField fields "items" = none) :
    validate_structured_output (Json.obj fields) =
      some (false, some "Array type must have items field") := by
  rw [validate_structured_output]
  simp [ht, typeIsValid, valid_schema_types]
  split <;> simp_all

theorem validate_arr_items_bad {fields : List (String × Json)} {it : Json} {e : Option String}
    (ht : lookupField fields "type" = some (Json.str "array"))
    (hi : lookupField fields "items" = some it)
    (hv : validate_structured_output it = some (false, e)) :
    validate_structured_output (Json.obj fields) =
      some (false, some ("Invalid array items: " ++ e.getD "")) := by
  conv_lhs => rw [validate_structured_output]
  simp [ht, typeIsValid, valid_schema_types]
  split
  · simp_all
  · rename_i it2 heq
    rw [hi] at heq
    cases heq
    simp [hv]

theorem validate_arr_items_raise {fields : List (String × Json)} {it : Json}
    (ht : lookupField fields "type" = some (Json.str "array"))
    (hi : lookupField fields "items" = some it)
    (hv : validate_structured_output it = none) :
    validate_structured_output (Json.obj fields) = none := by
  conv_lhs => rw [validate_structured_output]
  simp [ht, typeIsValid, valid_schema_types]
  split
  · simp_all
  · rename_i it2 heq
    rw [hi] at heq
    cases heq
    simp [hv]

theorem validate_arr_items_ok {fields : List (String × Json)} {it : Json} {s2 : Option String}
    (ht : lookupField fields "type" = some (Json.str "array"))
    (hi : lookupField fields "items" = some it)
    (hv : validate_structured_output it = some (true, s2)) :
    validate_structured_output (Json.obj fields) = some (true, none) := by
  conv_lhs => rw [validate_structured_output]
  simp [ht, typeIsValid, valid_schema_types]
  split
  · simp_all
  · rename_i it2 heq
    rw [hi] at heq
    cases heq
    simp [hv]

theorem validate_scalar {fields : List (String × Json)} {s : String}
    (ht : lookupField fields "type" = some (Json.str s))
    (hc : valid_schema_types.contains s = true)
    (h2 : s ≠ "object") (h3 : s ≠ "array") :
    validate_structured_output (Json.obj fields) = some (true, none) := by
  have hs : s = "string" ∨ s = "number" ∨ s = "boolean" := by
    have hmem : s ∈ valid_schema_types := by simpa using hc
    simp [valid_schema_types] at hmem
    rcases hmem with h | h | h | h | h
    · exact Or.inl h
    · exact Or.inr (Or.inl h)
    · exact Or.inr (Or.inr h)
    · exact absurd h h3
    · exact absurd h h2
  have hv : typeIsValid (Json.str s) = true := by simp only [typeIsValid]; exact hc
  rw [validate_structured_output]
  simp only [ht, hv, if_true]
  rcases hs with h | h | h <;> subst h <;> rfl

theorem validate_fallback (j : Json) (h1 : j ≠ Json.null)
    (h2 : ∀ fields, j ≠ Json.obj fields) :
    validate_structured_output j = some (false, some "Schema must be a JSON object") := by
  cases j with
  | null => exact absurd rfl h1
  | obj fields => exact absurd rfl (h2 fields)
  | str s => rw [validate_structured_output] <;> simp
  | num n => rw [validate_structured_output] <;> simp
  | bool b => rw [validate_structured_output] <;> simp
  | arr xs => rw [validate_structured_output] <;> simp

theorem amended_null : amendedSchemaOK Json.null = true := by
  simp [amendedSchemaOK]

theorem amended_no_type {fields : List (String × Json)}
    (h : lookupField fields "type" = none) : amendedSchemaOK (Json.obj fields) = false := by
  rw [amendedSchemaOK]
  simp [schemaType, h]

theorem amended_bad_type {fields : List (String × Json)} {t : Json}
    (ht : lookupField fields "type" = some t) (hv : typeIsValid t = false) :
    amendedSchemaOK (Json.obj fields) = false := by
  rw [amendedSchemaOK]
  cases t <;> simp_all [schemaType, typeIsValid]

theorem amended_object {fields : List (String × Json)}
    (ht : lookupField fields "type" = some (Json.str "object")) :
    amendedSchemaOK (Json.obj fields) =
      (match lookupField fields "properties" with
       | some (.obj props) =>
         (props.all fun kv => amendedSchemaOK kv.2) &&
           (match lookupField fields "required" with
            | none => true
            | some (.arr reqs) => reqs.all (reqNamesProp props)
            | some _ => false)
       | _ => false) := by
  rw [amendedSchemaOK]
  simp [schemaType, ht, valid_schema_types]
  split <;> simp_all [all_attach_snd]

theorem amended_array {fields : List (String × Json)}
    (ht : lookupField fields "type" = some (Json.str "array")) :
    amendedSchemaOK (Json.obj fields) =
      (match lookupField fields "items" with
       | some it => amendedSchemaOK it
       | none => false) := by
  rw [amendedSchemaOK]
  simp [schemaType, ht, valid_schema_types]
  split <;> simp_all

theorem amended_scalar {fields : List (String × Json)} {s : String}
    (ht : lookupField fields "type" = some (Json.str s))
    (hc : valid_schema_types.contains s = true)
    (h2 : s ≠ "object") (h3 : s ≠ "array") :
    amendedSchemaOK (Json.obj fields) = true := by
  rw [amendedSchemaOK]
  simp [schemaType, ht, h2, h3]
  simpa using hc

theorem amended_fallback (j : Json) (h1 : j ≠ Json.null)
    (h2 : ∀ fields, j ≠ Json.obj fields) : amendedSchemaOK j = false := by
  cases j with
  | null => exact absurd rfl h1
  | obj fields => exact absurd rfl (h2 fields)
  | str s => rw [amendedSchemaOK] <;> simp
  | num n => rw [amendedSchemaOK] <;> simp
  | bool b => rw [amendedSchemaOK] <;> simp
  | arr xs => rw [amendedSchemaOK] <;> simp

/-- The validator agrees with the amended predicate on every run that returns
(and a raising run only happens on inputs the amended predicate rejects), and
whenever it returns a rejection it supplies an error message. -/
theorem validate_amended_aux : ∀ j : Json,
    ((validate_structured_output j).map (fun r => r.1)).getD false = amendedSchemaOK j ∧
      (validate_structured_output j).map (fun r => r.2.isSome) =
        (validate_structured_output j).map (fun r => !r.1) := by
  exact validate_structured_output.induct
    (fun j => ((validate_structured_output j).map (fun r => r.1)).getD false =
        amendedSchemaOK j ∧
      (validate_structured_output j).map (fun r => r.2.isSome) =
        (validate_structured_output j).map (fun r => !r.1))
    (fun l => ((validateProperties l).map (fun r => r.1)).getD false =
        l.all (fun kv => amendedSchemaOK kv.2) ∧
      (validateProperties l).map (fun r => r.2.isSome) =
        (validateProperties l).map (fun r => !r.1))
    (by beta_reduce; simp [validate_null, amended_null])
    (fun fields h => by beta_reduce; simp [validate_no_type h, amended_no_type h])
    (fun fields hp ht _ => by
      beta_reduce
      rw [validate_obj_no_props ht hp, amended_object ht]
      simp [hp])
    (fun fields props hp hv ht _ ih => by
      beta_reduce
      rw [validate_obj_props_raise ht hp hv, amended_object ht]
      simp only [hp]
      have h1 : props.all (fun kv => amendedSchemaOK kv.2) = false := by
        have h2 := ih.1
        rw [hv] at h2
        simpa using h2.symm
      simp [h1]
    )
    (fun fields props hp e hv ht _ ih => by
      beta_reduce
      rw [validate_obj_props_bad ht hp hv, amended_object ht]
      simp only [hp]
      have h1 : props.all (fun kv => amendedSchemaOK kv.2) = false := by
        have h2 := ih.1
        rw [hv] at h2
        simpa using h2.symm
      have h3 := ih.2
      rw [hv] at h3
      simp at h3
      simp [h1, h3])
    (fun fields props hp s2 hv hr ht _ ih => by
      beta_reduce
      rw [validate_obj_ok_noreq ht hp hv hr, amended_object ht]
      simp only [hp, hr]
      have h1 : props.all (fun kv => amendedSchemaOK kv.2) = true := by
        have h2 := ih.1
        rw [hv] at h2
        simpa using h2.symm
      simp [h1])
    (fun fields props hp s2 hv reqs hr ht _ ih => by
      beta_reduce
      rw [validate_obj_req_arr ht hp hv hr, amended_object ht]
      simp only [hp, hr]
      have h1 : props.all (fun kv => amendedSchemaOK kv.2) = true := by
        have h2 := ih.1
        rw [hv] at h2
        simpa using h2.symm
      simp [h1, checkRequired_fst, checkRequired_err])
    (fun fields props hp s2 hv r hno hr ht _ ih => by
      beta_reduce
      rw [validate_obj_req_bad ht hp hv hr (fun xs h => hno xs h), amended_object ht]
      simp only [hp, hr]
      cases r with
      | arr xs => exact (hno xs rfl).elim
      | null => simp
      | str s => simp
      | num n => simp
      | bool b => simp
      | obj l => simp)
    (fun fields p hno hp ht _ => by
      beta_reduce
      rw [validate_obj_props_nonobj ht hp (fun l h => hno l h), amended_object ht]
      simp only [hp]
      cases p with
      | obj l => exact (hno l rfl).elim
      | null => simp
      | str s => simp
      | num n => simp
      | bool b => simp
      | arr xs => simp)
    (fun fields hi ht _ => by
      beta_reduce
      rw [validate_arr_no_items ht hi, amended_array ht]
      simp [hi])
    (fun fields it hi hv ht _ ih => by
      beta_reduce
      rw [validate_arr_items_raise ht hi hv, amended_array ht]
      simp only [hi]
      have h1 : amendedSchemaOK it = false := by
        have h2 := ih.1
        rw [hv] at h2
        simpa using h2.symm
      simp [h1])
    (fun fields it hi e hv ht _ ih => by
      beta_reduce
      rw [validate_arr_items_bad ht hi hv, amended_array ht]
      simp only [hi]
      have h1 : amendedSchemaOK it = false := by
        have h2 := ih.1
        rw [hv] at h2
        simpa using h2.symm
      simp [h1])
    (fun fields it hi s2 hv ht _ ih => by
      beta_reduce
      rw [validate_arr_items_ok ht hi hv, amended_array ht]
      simp only [hi]
      have h1 : amendedSchemaOK it = true := by
        have h2 := ih.1
        rw [hv] at h2
        simpa using h2.symm
      simp [h1])
    (fun fields t ht hv hno hna => by
      beta_reduce
      obtain ⟨s, rfl⟩ : ∃ s, t = Json.str s := by
        cases t <;> simp_all [typeIsValid]
      have hc : valid_schema_types.contains s = true := by simpa [typeIsValid] using hv
      have h2 : s ≠ "object" := fun h => hno (by rw [h])
      have h3 : s ≠ "array" := fun h => hna (by rw [h])
      rw [validate_scalar ht hc h2 h3, amended_scalar ht hc h2 h3]
      simp)
    (fun fields t ht hv => by
      beta_reduce
      have hv2 : typeIsValid t = false := by simpa using hv
      rw [validate_bad_type ht hv2, amended_bad_type ht hv2]
      simp)
    (fun x h1 h2 => by
      beta_reduce
      rw [validate_fallback x (fun h => h1 h) (fun fields h => h2 fields h),
        amended_fallback x (fun h => h1 h) (fun fields h => h2 fields h)]
      simp)
    (by beta_reduce; simp [validateProperties])
    (fun k v rest hv ih => by
      beta_reduce
      rw [validateProperties]
      have h1 : amendedSchemaOK v = false := by
        have h2 := ih.1
        rw [hv] at h2
        simpa using h2.symm
      simp [hv, h1])
    (fun k v rest e hv ih => by
      beta_reduce
      rw [validateProperties]
      have h1 : amendedSchemaOK v = false := by
        have h2 := ih.1
        rw [hv] at h2
        simpa using h2.symm
      simp [hv, h1])
    (fun k v rest s2 hv ih1 ih2 => by
      beta_reduce
      rw [validateProperties]
      have h1 : amendedSchemaOK v = true := by
        have h2 := ih1.1
        rw [hv] at h2
        simpa using h2.symm
      simp [hv, h1, ih2.1, ih2.2])

/-- A schema whose `properties` map contains a `null` node: the validator
accepts it (the `None` short-circuit), but the claim's rules reject it, since
a `null` node has no `type`. -/
def nullPropSchema : Json :=
  Json.obj [("type", Json.str "object"), ("properties", Json.obj [("a", Json.null)])]

/-- A schema whose `required` list contains a JSON array entry: Python's
`req_field not in schema["properties"]` hashes the entry, so the validator
raises an uncaught `TypeError` instead of returning. -/
def unhashableReqSchema : Json :=
  Json.obj [("type", Json.str "object"),
    ("properties", Json.obj [("a", Json.obj [("type", Json.str "string")])]),
    ("required", Json.arr [Json.arr [Json.str "a"]])]

/-- C9 counterexample, refuting the claimed equivalence at two inputs:
`validate_structured_output` accepts `{"type":"object","properties":{"a":null}}`
although the claim's acceptance condition (every node has a `type` drawn from
the five names) rejects it; and at
`{"type":"object","properties":{"a":{"type":"string"}},"required":[["a"]]}` —
which the claim says is rejected with an error — the function raises an
uncaught `TypeError` (modelled as `none`) and never returns at all. -/
theorem C9_counterexample :
    validate_structured_output nullPropSchema = some (true, none) ∧
      claimSchemaOK nullPropSchema = false ∧
      validate_structured_output unhashableReqSchema = none ∧
      claimSchemaOK unhashableReqSchema = false := by
  refine ⟨?_, ?_, ?_, ?_⟩
  · have hvp : validateProperties [("a", Json.null)] = some (true, none) := by
      rw [validateProperties]
      simp [validate_null]
      rw [validateProperties]
    rw [nullPropSchema, validate_obj_ok_noreq (by rfl) (by rfl) hvp (by rfl)]
  · rw [nullPropSchema, claimSchemaOK.eq_def]
    simp [schemaType, lookupField]
    intro h
    rw [claimSchemaOK.eq_def]
  · have hvp : validateProperties [("a", Json.obj [("type", Json.str "string")])] =
        some (true, none) := by
      rw [validateProperties]
      rw [validate_scalar (by rfl) (by rfl) (by simp) (by simp)]
      simp [validateProperties]
    rw [unhashableReqSchema, validate_obj_req_arr (by rfl) (by rfl) hvp (by rfl)]
    rfl
  · rw [unhashableReqSchema, claimSchemaOK.eq_def]
    simp [schemaType, lookupField, reqNamesProp]

/-- C9 (amended): whenever the validator returns, it accepts a JSON value if
and only if every node is either `null` or has a `type` drawn from {string,
number, boolean, array, object}, every non-null object node has a `properties`
map whose values are recursively valid and whose `required` list (when
present) names only keys of `properties`, and every non-null array node has a
recursively valid `items`; every returned rejection carries an error message.
A `required` entry that is a JSON array or object makes the membership test
raise an uncaught `TypeError` instead of returning (the `none` runs); such
inputs violate the rules, so on every input the amended rules accept, the
validator does return `(True, None)`. -/
theorem C9_validator_iff_amended : ∀ j : Json,
    ((validate_structured_output j).map (fun r => r.1)).getD false = amendedSchemaOK j ∧
      (validate_structured_output j).map (fun r => r.2.isSome) =
        (validate_structured_output j).map (fun r => !r.1) :=
  validate_amended_aux

/-! ## C4: response schema construction for the vision request

`analyze_grid_with_gemini` (src/api/tasks/screenshot_processor.py) fetches the
SOP for its `structured_output` and calls
`gemini_service.analyze_image_with_sop(grid_path, sop)`, but no method of that
name appears under src/ — `GeminiService` only implements
`analyze_screenshot`, whose request always carries the hard-coded Decanter
`RESPONSE_SCHEMA` and ignores the SOP.  The schema construction is therefore
modelled from the spec (§4.5). -/

/-- The Gemini SDK's `types.Schema` values, as far as the spec's translation
reaches them. -/
inductive SdkSchema where
  | string : SdkSchema
  | number : SdkSchema
  | boolean : SdkSchema
  | array (items : SdkSchema) : SdkSchema
  | object (properties : List (String × SdkSchema)) (required : List String) : SdkSchema

/-- The `required` list carried over to the SDK schema: the string entries of
the schema node's `required` array (absent or malformed `required` contributes
nothing). -/
def reqStrings : Option Json → List String
  | some (.arr reqs) => reqs.filterMap fun r => match r with | .str s => some s | _ => none
  | _ => []

/-- Modelled from the spec: the recursive translation of a `structuredSchema`
into the SDK schema type performed by the missing `analyze_image_with_sop` —
`object → {properties, required}`; `array → {items}`; scalar type names pass
through; unknown type names default to `string`.  (A well-formed schema always
carries `properties`/`items`; when they are missing the translation defaults
to an empty object / string items.) -/
def translateSchema : Json → SdkSchema
  | .obj fields =>
    match lookupField fields "type" with
    | some (.str "object") =>
      (match hp : lookupField fields "properties" with
       | some (.obj props) =>
         SdkSchema.object (props.attach.map fun kv => (kv.1.1, translateSchema kv.1.2))
           (reqStrings (lookupField fields "required"))
       | _ => SdkSchema.object [] (reqStrings (lookupField fields "required")))
    | some (.str "array") =>
      (match hi : lookupField fields "items" with
       | some it => SdkSchema.array (translateSchema it)
       | none => SdkSchema.array SdkSchema.string)
    | some (.str "number") => SdkSchema.number
    | some (.str "boolean") => SdkSchema.boolean
    | some (.str "string") => SdkSchema.string
    | _ => SdkSchema.string
  | _ => SdkSchema.string
termination_by j => sizeOf j
decreasing_by
  · obtain ⟨⟨k0, v0⟩, hm⟩ := kv
    have h1 := List.sizeOf_lt_of_mem hm
    have h2 := sizeOf_lookupField hp
    simp at h1 h2 ⊢
    omega
  · have h1 := sizeOf_lookupField hi
    simp at h1 ⊢
    omega

/-- A SOP row as the analysis path consumes it (src/api/models/models.py:
`id`, `prompt`, `frequency`, `structured_output`). -/
structure SOPm where
  id : Nat
  prompt : String
  frequency : Int
  structured_output : Json

/-- Modelled from the spec: the `response_schema` that `analyze_image_with_sop`
sends with the vision-model request is the recursive translation of the SOP's
`structuredSchema`. -/
def request_schema_sent (sop : SOPm) : SdkSchema :=
  translateSchema sop.structured_output

/-- C4 (amended): the response schema sent with the vision-model request is the
recursive translation of the SOP's structuredSchema, where object nodes map to
`{properties, required}` with recursively translated property values, array
nodes map to `{items}`, the scalar type names pass through, and unknown type
names default to `string`.  (The translation is not injective, so two SOPs
with different structuredSchemas need not produce different request schemas —
see the counterexample.) -/
theorem C4_request_schema_translation :
    (∀ sop : SOPm, request_schema_sent sop = translateSchema sop.structured_output) ∧
    (∀ (fields props : List (String × Json)),
      lookupField fields "type" = some (Json.str "object") →
      lookupField fields "properties" = some (Json.obj props) →
      translateSchema (Json.obj fields) =
        SdkSchema.object (props.map fun kv => (kv.1, translateSchema kv.2))
          (reqStrings (lookupField fields "required"))) ∧
    (∀ (fields : List (String × Json)) (it : Json),
      lookupField fields "type" = some (Json.str "array") →
      lookupField fields "items" = some it →
      translateSchema (Json.obj fields) = SdkSchema.array (translateSchema it)) ∧
    (∀ fields : List (String × Json),
      lookupField fields "type" = some (Json.str "string") →
      translateSchema (Json.obj fields) = SdkSchema.string) ∧
    (∀ fields : List (String × Json),
      lookupField fields "type" = some (Json.str "number") →
      translateSchema (Json.obj fields) = SdkSchema.number) ∧
    (∀ fields : List (String × Json),
      lookupField fields "type" = some (Json.str "boolean") →
      translateSchema (Json.obj fields) = SdkSchema.boolean) ∧
    (∀ (fields : List (String × Json)) (s : String),
      lookupField fields "type" = some (Json.str s) →
      s ∉ valid_schema_types →
      translateSchema (Json.obj fields) = SdkSchema.string) := by
  refine ⟨fun _ => rfl, ?_, ?_, ?_, ?_, ?_, ?_⟩
  · intro fields props ht hp
    rw [translateSchema.eq_def]
    simp only [ht]
    split
    · rename_i props2 heq
      rw [hp] at heq
      cases heq
      rw [← List.attach_map_coe props (fun kv => (kv.1, translateSchema kv.2))]
    · rename_i hne
      exact absurd hp (hne props)
  · intro fields it ht hi
    rw [translateSchema.eq_def]
    simp only [ht]
    split
    · rename_i it2 heq
      rw [hi] at heq
      cases heq
      rfl
    · simp_all
  · intro fields ht
    rw [translateSchema.eq_def]
    simp only [ht]
  · intro fields ht
    rw [translateSchema.eq_def]
    simp only [ht]
  · intro fields ht
    rw [translateSchema.eq_def]
    simp only [ht]
  · intro fields s ht hs
    rw [translateSchema.eq_def]
    simp only [ht]
    have h1 : s ≠ "object" := fun h => hs (by rw [h]; simp [valid_schema_types])
    have h2 : s ≠ "array" := fun h => hs (by rw [h]; simp [valid_schema_types])
    have h3 : s ≠ "number" := fun h => hs (by rw [h]; simp [valid_schema_types])
    have h4 : s ≠ "boolean" := fun h => hs (by rw [h]; simp [valid_schema_types])
    have h5 : s ≠ "string" := fun h => hs (by rw [h]; simp [valid_schema_types])
    simp [h1, h2, h3, h4, h5]

/-- Witness for C4: the translation rules evaluated at concrete schema nodes
of each kind. -/
theorem C4_request_schema_translation_witness :
    (request_schema_sent ⟨1, "p", 10, Json.obj [("type", Json.str "number")]⟩ =
      translateSchema (Json.obj [("type", Json.str "number")])) ∧
    (translateSchema (Json.obj [("type", Json.str "object"),
        ("properties", Json.obj [("a", Json.obj [("type", Json.str "number")])]),
        ("required", Json.arr [Json.str "a"])]) =
      SdkSchema.object
        ([("a", Json.obj [("type", Json.str "number")])].map
          fun kv => (kv.1, translateSchema kv.2))
        (reqStrings (lookupField [("type", Json.str "object"),
          ("properties", Json.obj [("a", Json.obj [("type", Json.str "number")])]),
          ("required", Json.arr [Json.str "a"])] "required"))) ∧
    (translateSchema (Json.obj [("type", Json.str "array"),
        ("items", Json.obj [("type", Json.str "boolean")])]) =
      SdkSchema.array (translateSchema (Json.obj [("type", Json.str "boolean")]))) ∧
    (translateSchema (Json.obj [("type", Json.str "string")]) = SdkSchema.string) ∧
    (translateSchema (Json.obj [("type", Json.str "number")]) = SdkSchema.number) ∧
    (translateSchema (Json.obj [("type", Json.str "boolean")]) = SdkSchema.boolean) ∧
    (translateSchema (Json.obj [("type", Json.str "datetime")]) = SdkSchema.string) :=
  ⟨C4_request_schema_translation.1 ⟨1, "p", 10, Json.obj [("type", Json.str "number")]⟩,
   C4_request_schema_translation.2.1 _ [("a", Json.obj [("type", Json.str "number")])]
     (by rfl) (by rfl),
   C4_request_schema_translation.2.2.1 _ (Json.obj [("type", Json.str "boolean")])
     (by rfl) (by rfl),
   C4_request_schema_translation.2.2.2.1 _ (by rfl),
   C4_request_schema_translation.2.2.2.2.1 _ (by rfl),
   C4_request_schema_translation.2.2.2.2.2.1 _ (by rfl),
   C4_request_schema_translation.2.2.2.2.2.2 _ "datetime" (by rfl)
     (by simp [valid_schema_types])⟩

/-- C4 counterexample: two SOPs whose structuredSchemas differ — both accepted
by the schema validator — produce the same request schema, because the
translation reads only `type`, `properties`, `required` and `items` and
ignores any other field.  The claim's clause that two SOPs with different
structuredSchemas produce different request schemas is therefore false. -/
theorem C4_counterexample :
    (Json.obj [("type", Json.str "string")] ≠
      Json.obj [("type", Json.str "string"), ("x", Json.str "y")]) ∧
    validate_structured_output (Json.obj [("type", Json.str "string")]) =
      some (true, none) ∧
    validate_structured_output
      (Json.obj [("type", Json.str "string"), ("x", Json.str "y")]) =
      some (true, none) ∧
    request_schema_sent ⟨1, "p", 10, Json.obj [("type", Json.str "string")]⟩ =
      request_schema_sent ⟨2, "p", 10,
        Json.obj [("type", Json.str "string"), ("x", Json.str "y")]⟩ := by
  refine ⟨?_, ?_, ?_, ?_⟩
  · intro h
    injection h with h2
    simp at h2
  · rw [validate_scalar (by rfl) (by rfl) (by simp) (by simp)]
  · rw [validate_scalar (by rfl) (by rfl) (by simp) (by simp)]
  · show translateSchema _ = translateSchema _
    rw [translateSchema.eq_def, translateSchema.eq_def]
    simp [lookupField]

/-! ## C1: `get_recent_screenshot_urls` (src/api/utils/gcs_utils.py)

A GCS blob is its key, its backend creation timestamp and its public URL.
`datetime` values are embedded as naturals via the lexicographic ordinal of
`(year, month, day, hour, minute, second)`, which preserves `datetime`
comparison; `time_created` is the ordinal of the backend creation time. -/

structure ProcState where
  screenshots_per_grid : Nat
  screenshot_counts : String → Nat

inductive ProcEvent where
  | uploadAttempt (blob : String) : ProcEvent
  | localCopy (blob : String) : ProcEvent
  | gridDispatch (stream_id : String) : ProcEvent
deriving DecidableEq

structure ProcEnv where
  frame_exists : Bool
  current_time : String
  upload_ok : Bool
  copy_ok : Bool
  grid_ok : Bool

/-- Embedding of `ScreenshotProcessor.process_screenshot`. -/
def process_screenshot (env : ProcEnv) (stream_id stream_name : String)
    (grid_rows grid_cols : Nat) (st : ProcState) : Bool × ProcState × List ProcEvent :=
  if !env.frame_exists then (false, st, [])
  else
    let st1 := if grid_rows * grid_cols ≠ st.screenshots_per_grid
      then { st with screenshots_per_grid := grid_rows * grid_cols } else st
    let file_name := "screenshots/" ++ stream_id ++ "-"
      ++ (stream_name.replace " " "_") ++ "-" ++ env.current_time ++ ".jpg"
    if !env.upload_ok then (false, st1, [ProcEvent.uploadAttempt file_name])
    else if !env.copy_ok then (false, st1, [ProcEvent.uploadAttempt file_name])
    else
      let events := [ProcEvent.uploadAttempt file_name, ProcEvent.localCopy file_name]
      let counts1 := fun s =>
        if s = stream_id then st1.screenshot_counts s + 1 else st1.screenshot_counts s
      if counts1 stream_id ≥ st1.screenshots_per_grid then
        let counts2 := fun s => if s = stream_id then 0 else counts1 s
        (env.grid_ok, { st1 with screenshot_counts := counts2 },
          events ++ [ProcEvent.gridDispatch stream_id])
      else
        (true, { st1 with screenshot_counts := counts1 }, events)

/-- C2: whenever `process_screenshot` reaches the counter check and observes
`screenshotCount ≥ screenshotsPerGrid`, it zeroes that stream's counter before
initiating grid creation, so the counter is 0 after the call — whatever
`_create_grid` (grid creation plus the downstream analysis dispatch, which
catches its own failures) returns. -/
theorem C2_counter_reset_before_dispatch (env : ProcEnv) (stream_id stream_name : String)
    (grid_rows grid_cols : Nat) (st : ProcState)
    (hframe : env.frame_exists = true) (hup : env.upload_ok = true)
    (hcopy : env.copy_ok = true)
    (hthresh : st.screenshot_counts stream_id + 1 ≥
      (if grid_rows * grid_cols ≠ st.screenshots_per_grid then grid_rows * grid_cols
       else st.screenshots_per_grid)) :
    (process_screenshot env stream_id stream_name grid_rows grid_cols st).2.1.screenshot_counts
        stream_id = 0 ∧
      ProcEvent.gridDispatch stream_id ∈
        (process_screenshot env stream_id stream_name grid_rows grid_cols st).2.2 := by
  unfold process_screenshot
  by_cases hsz : grid_rows * grid_cols ≠ st.screenshots_per_grid <;>
    simp_all [ge_iff_le]

/-- Witness for C2 at a concrete state where the threshold is reached and grid
creation fails (`grid_ok = false`): the counter is still reset to 0. -/
theorem C2_counter_reset_before_dispatch_witness :
    (process_screenshot ⟨true, "25-10-12--03--04--05", true, true, false⟩ "s1" "Cam 1" 2 3
        ⟨6, fun s => if s = "s1" then 5 else 0⟩).2.1.screenshot_counts "s1" = 0 ∧
      ProcEvent.gridDispatch "s1" ∈
        (process_screenshot ⟨true, "25-10-12--03--04--05", true, true, false⟩ "s1" "Cam 1" 2 3
          ⟨6, fun s => if s = "s1" then 5 else 0⟩).2.2 :=
  C2_counter_reset_before_dispatch _ "s1" "Cam 1" 2 3 _ rfl rfl rfl (by simp)

/-- C5: when the ObjectStore upload fails, `process_screenshot` returns
`False`, leaves every stream's counter untouched, and dispatches no grid. -/
theorem C5_upload_failure_atomic (env : ProcEnv) (stream_id stream_name : String)
    (grid_rows grid_cols : Nat) (st : ProcState)
    (hframe : env.frame_exists = true) (hup : env.upload_ok = false) :
    (process_screenshot env stream_id stream_name grid_rows grid_cols st).1 = false ∧
      (process_screenshot env stream_id stream_name grid_rows grid_cols st).2.1.screenshot_counts
        = st.screenshot_counts ∧
      ∀ s, ProcEvent.gridDispatch s ∉
        (process_screenshot env stream_id stream_name grid_rows grid_cols st).2.2 := by
  unfold process_screenshot
  by_cases hsz : grid_rows * grid_cols ≠ st.screenshots_per_grid <;>
    simp_all

/-- Witness for C5 at a concrete state with a failing upload: result is
`False`, the counter map is unchanged, no grid dispatch happens. -/
theorem C5_upload_failure_atomic_witness :
    (process_screenshot ⟨true, "25-10-12--03--04--05", false, true, true⟩ "s1" "Cam 1" 2 3
        ⟨6, fun s => if s = "s1" then 5 else 0⟩).1 = false ∧
      (process_screenshot ⟨true, "25-10-12--03--04--05", false, true, true⟩ "s1" "Cam 1" 2 3
          ⟨6, fun s => if s = "s1" then 5 else 0⟩).2.1.screenshot_counts
        = (fun s => if s = "s1" then 5 else 0) ∧
      ∀ s, ProcEvent.gridDispatch s ∉
        (process_screenshot ⟨true, "25-10-12--03--04--05", false, true, true⟩ "s1" "Cam 1" 2 3
          ⟨6, fun s => if s = "s1" then 5 else 0⟩).2.2 :=
  C5_upload_failure_atomic _ "s1" "Cam 1" 2 3 _ rfl rfl

/-! ## C3 / C10: `StreamManager` (src/api/tasks/stream_manager.py)

The five `stream_id`-keyed dicts are total functions into `Option`; the
subprocess handle is its pid.  `tempfile.mkdtemp`, `subprocess.Popen` (which
may raise `OSError`), `_verify_hls` (a filesystem poll), `proc.poll()` and
`proc.wait(5)` are oracles, and directory creation, process spawns, signals
and directory removal are recorded as events. -/

structure StatusEntry where
  status : String
  error : Option String
deriving DecidableEq

structure SMState where
  streams : String → Option String
  temp_dirs : String → Option String
  processes : String → Option Nat
  status : String → Option StatusEntry
  ffmpeg_logs : String → Option (List String)

inductive SMEvent where
  | mkdtemp (dir : String) : SMEvent
  | spawn (pid : Nat) (rtsp_url : String) : SMEvent
  | terminate (pid : Nat) : SMEvent
  | kill (pid : Nat) : SMEvent
  | rmtree (dir : String) : SMEvent
deriving DecidableEq

/-- Point update of a stream-keyed map. -/
def upd {α : Type} (m : String → Option α) (k : String) (v : Option α) :
    String → Option α :=
  fun x => if x = k then v else m x

/-- Embedding of `StreamManager.stop_stream`: pop all five entries, signal the
process group (TERM, then kill when the bounded wait fails), remove the
scratch directory. -/
def stop_stream (wait_ok : Bool) (stream_id : String) (st : SMState) :
    SMState × List SMEvent :=
  let proc := st.processes stream_id
  let temp := st.temp_dirs stream_id
  let st' : SMState :=
    { streams := upd st.streams stream_id none
      temp_dirs := upd st.temp_dirs stream_id none
      processes := upd st.processes stream_id none
      status := upd st.status stream_id none
      ffmpeg_logs := upd st.ffmpeg_logs stream_id none }
  let ev1 := match proc with
    | some pid => SMEvent.terminate pid :: (if wait_ok then [] else [SMEvent.kill pid])
    | none => []
  let ev2 := match temp with
    | some d => [SMEvent.rmtree d]
    | none => []
  (st', ev1 ++ ev2)

structure StartEnv where
  temp_dir : String
  pid : Nat
  launch_ok : Bool
  launch_err : String
  verify_ok : Bool
  wait_ok : Bool

/-- Embedding of `StreamManager.start_stream`: an already-registered id
returns `False` at once; otherwise register, create the scratch directory,
launch ffmpeg (an `OSError` marks the session `error` and tears it down),
verify HLS readiness (failure likewise), and mark the session `running`. -/
def start_stream (env : StartEnv) (stream_id rtsp_url : String) (st : SMState) :
    Bool × SMState × List SMEvent :=
  match st.streams stream_id with
  | some _ => (false, st, [])
  | none =>
    let st1 : SMState :=
      { st with
        streams := upd st.streams stream_id (some rtsp_url)
        status := upd st.status stream_id (some ⟨"init", none⟩) }
    let st2 := { st1 with temp_dirs := upd st1.temp_dirs stream_id (some env.temp_dir) }
    if !env.launch_ok then
      let st3 := { st2 with
        status := upd st2.status stream_id (some ⟨"error", some env.launch_err⟩) }
      let stev := stop_stream env.wait_ok stream_id st3
      (false, stev.1, SMEvent.mkdtemp env.temp_dir :: stev.2)
    else
      let st3 := { st2 with
        processes := upd st2.processes stream_id (some env.pid)
        ffmpeg_logs := upd st2.ffmpeg_logs stream_id (some []) }
      if !env.verify_ok then
        let st4 := { st3 with
          status := upd st3.status stream_id (some ⟨"error", some "HLS setup timeout"⟩) }
        let stev := stop_stream env.wait_ok stream_id st4
        (false, stev.1,
          SMEvent.mkdtemp env.temp_dir :: SMEvent.spawn env.pid rtsp_url :: stev.2)
      else
        (true,
          { st3 with status := upd st3.status stream_id (some ⟨"running", none⟩) },
          [SMEvent.mkdtemp env.temp_dir, SMEvent.spawn env.pid rtsp_url])

/-- Embedding of `StreamManager.get_stream_status`: unknown ids synthesize
`{"status": "unknown", "error": "not found"}`; a session whose process has
exited synthesizes an error snapshot carrying the last stderr lines and is
stopped as a side effect. -/
def get_stream_status (proc_alive wait_ok : Bool) (stream_id : String) (st : SMState) :
    StatusEntry × SMState × List SMEvent :=
  match st.status stream_id with
  | none => (⟨"unknown", some "not found"⟩, st, [])
  | some stat =>
    match st.processes stream_id with
    | some _ =>
      if !proc_alive then
        let logs := (st.ffmpeg_logs stream_id).getD []
        let last5 := logs.drop (logs.length - 5)
        let stat' : StatusEntry :=
          ⟨"error", some ("Process exited. Logs: " ++ String.intercalate ", " last5)⟩
        let stev := stop_stream wait_ok stream_id st
        (stat', stev.1, stev.2)
      else (stat, st, [])
    | none => (stat, st, [])

/-- C3: after a successful `start_stream(id, url)`, a second
`start_stream(id, url2)` returns `False` (the code's report of the
already-registered case) before creating a scratch directory or launching a
process — its event list is empty — and leaves the whole manager state,
including the first call's session (`rtspUrl`, `workDir`, `process`,
`status`), unchanged; the registered process for `id` is still exactly the
first call's. -/
theorem C3_start_stream_twice (env1 env2 : StartEnv) (stream_id url url2 : String)
    (st : SMState) (hfirst : (start_stream env1 stream_id url st).1 = true) :
    start_stream env2 stream_id url2 (start_stream env1 stream_id url st).2.1 =
        (false, (start_stream env1 stream_id url st).2.1, []) ∧
      (start_stream env1 stream_id url st).2.1.processes stream_id = some env1.pid := by
  unfold start_stream at *
  cases hs : st.streams stream_id with
  | some u => rw [hs] at hfirst; simp at hfirst
  | none =>
    by_cases hl : env1.launch_ok = true
    · by_cases hv : env1.verify_ok = true
      · simp only [hs, hl, hv] at hfirst ⊢
        simp [upd]
      · simp [hs, hl, hv] at hfirst
    · simp [hs, hl] at hfirst

/-- Witness for C3: a concrete successful first call followed by a second
call for the same id. -/
theorem C3_start_stream_twice_witness :
    start_stream ⟨"/tmp/d2", 8, true, "", true, true⟩ "s1" "rtsp://cam/2"
        (start_stream ⟨"/tmp/d1", 7, true, "", true, true⟩ "s1" "rtsp://cam/1"
          ⟨fun _ => none, fun _ => none, fun _ => none, fun _ => none, fun _ => none⟩).2.1 =
      (false,
        (start_stream ⟨"/tmp/d1", 7, true, "", true, true⟩ "s1" "rtsp://cam/1"
          ⟨fun _ => none, fun _ => none, fun _ => none, fun _ => none, fun _ => none⟩).2.1,
        []) ∧
      (start_stream ⟨"/tmp/d1", 7, true, "", true, true⟩ "s1" "rtsp://cam/1"
        ⟨fun _ => none, fun _ => none, fun _ => none, fun _ => none,
          fun _ => none⟩).2.1.processes "s1" = some 7 :=
  C3_start_stream_twice _ _ "s1" "rtsp://cam/1" "rtsp://cam/2" _ rfl

/-- C10: `get_stream_status` on an id with no session returns exactly
`{"status": "unknown", "error": "not found"}` and leaves the manager state
unchanged, performing no side effects. -/
theorem C10_unknown_stream_status (proc_alive wait_ok : Bool) (stream_id : String)
    (st : SMState) (h : st.status stream_id = none) :
    get_stream_status proc_alive wait_ok stream_id st =
      (⟨"unknown", some "not found"⟩, st, []) := by
  unfold get_stream_status
  rw [h]

/-- Witness for C10: a stream that was never started on an otherwise populated
manager state. -/
theorem C10_unknown_stream_status_witness :
    get_stream_status true true "ghost"
        ⟨fun s => if s = "s1" then some "rtsp://cam/1" else none,
         fun s => if s = "s1" then some "/tmp/d1" else none,
         fun s => if s = "s1" then some 7 else none,
         fun s => if s = "s1" then some ⟨"running", none⟩ else none,
         fun s => if s = "s1" then some [] else none⟩ =
      (⟨"unknown", some "not found"⟩,
        ⟨fun s => if s = "s1" then some "rtsp://cam/1" else none,
         fun s => if s = "s1" then some "/tmp/d1" else none,
         fun s => if s = "s1" then some 7 else none,
         fun s => if s = "s1" then some ⟨"running", none⟩ else none,
         fun s => if s = "s1" then some [] else none⟩, []) :=
  C10_unknown_stream_status true true "ghost" _ (by simp)

/-! ## C7: `get_streams` (src/api/tasks/cron_jobs.py)

The module-level `streams_cache` dict is `{streams, last_updated, ttl}`;
`time.time()` and the HTTP fetch are oracles.  `requests` exceptions, a
non-ok status, a body that fails `response.json()`, and any payload without a
usable `'streams'` key all fall through to `return streams_cache['streams']`
(a non-dict payload either lacks `'streams'` or raises `TypeError` on
`data['streams']`, which the final `except` also turns into the cached
return). -/

structure StreamsCache where
  streams : Json
  last_updated : Rat
  ttl : Option Rat

inductive FetchResult where
  | connError : FetchResult
  | timeoutError : FetchResult
  | requestError : FetchResult
  | otherError : FetchResult
  | response (ok : Bool) (body : Option Json) : FetchResult

structure FetchEnv where
  current_time : Rat
  config_ttl : Rat
  fetch : FetchResult

/-- Embedding of `get_streams`. -/
def get_streams (env : FetchEnv) (cache : StreamsCache) : Json × StreamsCache :=
  let cache1 := if cache.ttl = none then { cache with ttl := some env.config_ttl } else cache
  if env.current_time - cache1.last_updated < cache1.ttl.getD 0 then
    (cache1.streams, cache1)
  else
    match env.fetch with
    | .connError => (cache1.streams, cache1)
    | .timeoutError => (cache1.streams, cache1)
    | .requestError => (cache1.streams, cache1)
    | .otherError => (cache1.streams, cache1)
    | .response ok body =>
      if !ok then (cache1.streams, cache1)
      else
        match body with
        | none => (cache1.streams, cache1)
        | some (.obj fields) =>
          match lookupField fields "streams" with
          | none => (cache1.streams, cache1)
          | some v => (v, { cache1 with streams := v, last_updated := env.current_time })
        | some _ => (cache1.streams, cache1)

/-- A fetch outcome that does not deliver a payload with a `'streams'` key:
a transport error, a non-ok status, an unparseable body, or a parsed body
without a usable `'streams'` entry. -/
def fetchFailed : FetchResult → Bool
  | .connError => true
  | .timeoutError => true
  | .requestError => true
  | .otherError => true
  | .response ok body =>
    !ok ||
      (match body with
       | some (.obj fields) => (lookupField fields "streams").isNone
       | _ => true)

/-- C7: when the fetch fails (network error, non-ok status, or a payload
without a `'streams'` key), `get_streams` returns the previously cached list
unchanged and leaves the cached data (`streams`, `last_updated`) unmodified —
for any cache state, including one populated by a successful prior fetch. -/
theorem C7_cache_fallback (env : FetchEnv) (cache : StreamsCache)
    (h : fetchFailed env.fetch = true) :
    (get_streams env cache).1 = cache.streams ∧
      (get_streams env cache).2.streams = cache.streams ∧
      (get_streams env cache).2.last_updated = cache.last_updated := by
  unfold get_streams
  by_cases httl : cache.ttl = none <;>
    cases hfe : env.fetch <;>
      simp_all [fetchFailed] <;>
      (repeat' split) <;>
      simp_all
/-- Witness for C7: a cache holding one stream, an expired TTL and a non-ok
HTTP response: the cached list is returned and the cache is unchanged. -/
theorem C7_cache_fallback_witness :
    (get_streams ⟨1000, 300, .response false none⟩
        ⟨Json.arr [Json.str "s1"], 100, some 300⟩).1 = Json.arr [Json.str "s1"] ∧
      (get_streams ⟨1000, 300, .response false none⟩
        ⟨Json.arr [Json.str "s1"], 100, some 300⟩).2.streams = Json.arr [Json.str "s1"] ∧
      (get_streams ⟨1000, 300, .response false none⟩
        ⟨Json.arr [Json.str "s1"], 100, some 300⟩).2.last_updated = 100 :=
  C7_cache_fallback _ _ (by rfl)

/-! ## C6: the streaming-deadline check of `analyze_screenshot`
(src/api/services/gemini_service.py)

The stream of SDK chunks is a list, each chunk carrying the value of
`time.time() - start_time` observed when the loop reaches it, together with
its text.  `json.loads` is an external library call and is passed in as a
parameter.  `DecanterAnalysisResult.from_dict` stores the four dict entries
without type-checking them; a missing key (`KeyError`) escapes
`_parse_response` and is wrapped by the outer handler into a generic
`GeminiAnalysisError`. -/

structure GeminiConfig where
  api_key : String
  model_name : String
  temperature : Rat
  timeout_seconds : Rat

structure Chunk where
  elapsed : Rat
  text : String

inductive GemError where
  | timeout (seconds : Rat) : GemError
  | analysisError (msg : String) : GemError
  | configError (msg : String) : GemError
deriving DecidableEq

structure DecanterAnalysisResult where
  is_being_opened : Json
  is_already_opened : Json
  is_being_closed : Json
  is_already_closed : Json

/-- `DecanterAnalysisResult.from_dict`: the four keyed reads; a missing key or
a non-dict value raises (modelled as `none`). -/
def decanter_from_dict : Json → Option DecanterAnalysisResult
  | .obj fields =>
    match lookupField fields "Decanter being opened",
        lookupField fields "Decanter already opened",
        lookupField fields "Decanter being closed",
        lookupField fields "Decanter already closed" with
    | some a, some b, some c, some d => some ⟨a, b, c, d⟩
    | _, _, _, _ => none
  | _ => none

/-- The chunk-accumulation loop of `analyze_screenshot`: before consuming each
received chunk it raises `GeminiTimeoutError` when the observed elapsed time
strictly exceeds `timeout_seconds`, otherwise appends the chunk text. -/
def accumulate_chunks (timeout_seconds : Rat) : List Chunk → String → Except GemError String
  | [], acc => .ok acc
  | c :: cs, acc =>
    if timeout_seconds < c.elapsed then .error (.timeout timeout_seconds)
    else accumulate_chunks timeout_seconds cs (acc ++ c.text)

/-- `analyze_screenshot` from the streaming call onward: accumulate the chunks
under the deadline, parse the accumulated text as JSON (`AnalysisError` when
it is not valid JSON), build the structured result (`AnalysisError` when the
expected keys are missing).  Gemini errors propagate unchanged through both
exception handlers (none of their messages contains "deprecated"). -/
def analyze_screenshot_stream (loads : String → Option Json) (config : GeminiConfig)
    (chunks : List Chunk) : Except GemError DecanterAnalysisResult :=
  match accumulate_chunks config.timeout_seconds chunks "" with
  | .error e => .error e
  | .ok full_output =>
    match loads full_output with
    | none => .error (.analysisError "Gemini response was not valid JSON")
    | some data =>
      match decanter_from_dict data with
      | none => .error (.analysisError "Analysis failed")
      | some r => .ok r

inductive GridEvent where
  | analysisRecord (rtsp_id sop_id : String) : GridEvent
deriving DecidableEq

/-- The record-writing step of `analyze_grid_with_gemini`
(src/api/tasks/screenshot_processor.py): `create_analysis_record` is reached
only when the analysis returned a result; an analysis exception propagates
past it. -/
def analyze_grid_record (rtsp_id sop_id : String)
    (analysis : Except GemError DecanterAnalysisResult) : List GridEvent :=
  match analysis with
  | .ok _ => [GridEvent.analysisRecord rtsp_id sop_id]
  | .error _ => []

theorem accumulate_chunks_timeout (t : Rat) (chunks : List Chunk) (acc : String)
    (h : ∃ c ∈ chunks, t < c.elapsed) :
    accumulate_chunks t chunks acc = .error (.timeout t) := by
  induction chunks generalizing acc with
  | nil => simp at h
  | cons c cs ih =>
    rw [accumulate_chunks]
    by_cases hc : t < c.elapsed
    · simp [hc]
    · simp only [hc, if_false, if_neg hc]
      apply ih
      rcases h with ⟨c2, hc2, hlt⟩
      rcases List.mem_cons.mp hc2 with rfl | hmem
      · exact absurd hlt hc
      · exact ⟨c2, hmem, hlt⟩

/-- C6 (amended): if the elapsed time observed when a streamed chunk arrives
strictly exceeds `timeoutSeconds`, the call aborts with the Timeout error, and
in that case no Analysis record is written.  (The source's check is
`elapsed > timeout`, not `≥`, and it runs once per received chunk.) -/
theorem C6_stream_timeout (loads : String → Option Json) (config : GeminiConfig)
    (chunks : List Chunk) (rtsp_id sop_id : String)
    (h : ∃ c ∈ chunks, config.timeout_seconds < c.elapsed) :
    analyze_screenshot_stream loads config chunks =
        .error (.timeout config.timeout_seconds) ∧
      analyze_grid_record rtsp_id sop_id (analyze_screenshot_stream loads config chunks)
        = [] := by
  have hacc := accumulate_chunks_timeout config.timeout_seconds chunks "" h
  unfold analyze_screenshot_stream
  rw [hacc]
  exact ⟨rfl, rfl⟩

/-- Witness for C6 at a concrete run: timeout 30 (the default), one chunk
observed at 31 seconds. -/
theorem C6_stream_timeout_witness :
    analyze_screenshot_stream (fun _ => none) ⟨"k", "gemini-2.0-flash", 1, 30⟩
        [⟨31, "x"⟩] = .error (.timeout 30) ∧
      analyze_grid_record "s1" "sop1"
        (analyze_screenshot_stream (fun _ => none) ⟨"k", "gemini-2.0-flash", 1, 30⟩
          [⟨31, "x"⟩]) = [] :=
  C6_stream_timeout _ _ _ "s1" "sop1" ⟨⟨31, "x"⟩, by simp, by norm_num⟩

/-- C6 counterexample: with `timeoutSeconds = 30` and the total elapsed time
reaching exactly 30 seconds at the only received chunk, the claim as stated
("reaches or exceeds") demands a Timeout abort, but the code's strict `>`
check lets the call run on: it completes accumulation and fails later at JSON
parsing of the text `"x"` (which is not valid JSON, so `loads` returns
`none`), not with a Timeout. -/
theorem C6_counterexample :
    ((30 : Rat) ≤ 30) ∧
      analyze_screenshot_stream (fun _ => none) ⟨"k", "gemini-2.0-flash", 1, 30⟩
          [⟨30, "x"⟩] =
        .error (.analysisError "Gemini response was not valid JSON") := by
  constructor
  · exact le_refl _
  · rfl

/-! ## C8: `stitch_images` (src/api/tasks/stitcher.py)

PIL images are their size plus a pixel function (colours as naturals,
`white = 0xFFFFFF`); `Image.paste` overwrites the covered region, clipped to
the canvas.  `stitch_images` builds a white canvas sized from the first
image's dimensions and pastes image `i` at
`((i % C)·(w+10), (i div C)·(h+10))`, stopping at `R·C` images; saving to
disk does not affect the returned bitmap. -/

def BORDER_SIZE : Nat := 10

def whitePixel : Nat := 16777215

structure PImage where
  width : Nat
  height : Nat
  pix : Nat → Nat → Nat

/-- `base.paste(img, (x, y))`. -/
def paste (base img : PImage) (x y : Nat) : PImage :=
  { base with
    pix := fun u v =>
      if x ≤ u ∧ u < x + img.width ∧ y ≤ v ∧ v < y + img.height ∧
          u < base.width ∧ v < base.height
      then img.pix (u - x) (v - y)
      else base.pix u v }

/-- The placement loop of `stitch_images`: `for i, (_, image) in
enumerate(images)` with `break` once `i ≥ grid_rows * grid_cols`. -/
def placeImages (grid_rows grid_cols w h : Nat) : Nat → List (String × PImage) → PImage → PImage
  | _, [], canvas => canvas
  | i, (_, img) :: rest, canvas =>
    if grid_rows * grid_cols ≤ i then canvas
    else
      placeImages grid_rows grid_cols w h (i + 1) rest
        (paste canvas img ((i % grid_cols) * (w + BORDER_SIZE))
          ((i / grid_cols) * (h + BORDER_SIZE)))

/-- Embedding of `stitch_images`: `None` on an empty list, else the grid
composed on a white canvas whose cell size is the first image's size. -/
def stitch_images (images : List (String × PImage)) (grid_rows grid_cols : Nat) :
    Option PImage :=
  match images with
  | [] => none
  | (_, first) :: _ =>
    let w := first.width
    let h := first.height
    let total_width := grid_cols * w + (grid_cols - 1) * BORDER_SIZE
    let total_height := grid_rows * h + (grid_rows - 1) * BORDER_SIZE
    some (placeImages grid_rows grid_cols w h 0 images
      ⟨total_width, total_height, fun _ _ => whitePixel⟩)

/-- C8 counterexample: with grid 3×1 and two images — the first 1×1, the
second 1×30 — the second image is pasted at `(0, 11)` and bleeds down into
the third cell's region, so the empty cell's pixel `(0, 22)` holds the second
image's colour (0), not the default background: the claim's unconditional
"cells with no image keep the default background" is false for non-uniform
images. -/
theorem C8_counterexample :
    (stitch_images [("a", ⟨1, 1, fun _ _ => 0⟩), ("b", ⟨1, 30, fun _ _ => 0⟩)] 3 1).map
        (fun img => img.pix 0 22) = some 0 ∧
      whitePixel ≠ 0 := by
  constructor
  · rfl
  · simp [whitePixel]
theorem cell_disjoint {s w a b u u' : Nat} (hw : w ≤ s) (hu : u < w) (hu' : u' < w)
    (hne : a ≠ b) : a * s + u ≠ b * s + u' := by
  rcases Nat.lt_or_ge a b with hab | hab
  · have h1 : (a + 1) * s = a * s + s := by ring
    have h2 : (a + 1) * s ≤ b * s := Nat.mul_le_mul_right s hab
    omega
  · have hba : b < a := by omega
    have h1 : (b + 1) * s = b * s + s := by ring
    have h2 : (b + 1) * s ≤ a * s := Nat.mul_le_mul_right s hba
    omega

theorem cell_unique {s w a b u p : Nat} (hw : w ≤ s) (hu : u < w)
    (hp : p = a * s + u) (h1 : b * s ≤ p) (h2 : p < b * s + w) : a = b := by
  by_contra hne
  have hu' : p - b * s < w := by omega
  have heq : a * s + u = b * s + (p - b * s) := by omega
  exact cell_disjoint hw hu hu' hne heq

theorem placeImages_pix_untouched (R C w h : Nat)
    (imgs : List (String × PImage))
    (huni : ∀ ni ∈ imgs, ni.2.width = w ∧ ni.2.height = h)
    (i t u v : Nat) (hu : u < w) (hv : v < h)
    (hout : t < i ∨ i + imgs.length ≤ t)
    (canvas : PImage) :
    (placeImages R C w h i imgs canvas).pix
        ((t % C) * (w + BORDER_SIZE) + u) ((t / C) * (h + BORDER_SIZE) + v) =
      canvas.pix ((t % C) * (w + BORDER_SIZE) + u) ((t / C) * (h + BORDER_SIZE) + v) := by
  induction imgs generalizing i canvas with
  | nil => rfl
  | cons im rest ih =>
    obtain ⟨nm, img⟩ := im
    rw [placeImages]
    split
    · rfl
    · rename_i hguard
      have hW : img.width = w := (huni (nm, img) (by simp)).1
      have hH : img.height = h := (huni (nm, img) (by simp)).2
      have hrest : ∀ ni ∈ rest, ni.2.width = w ∧ ni.2.height = h := by
        intro ni hni
        exact huni ni (by simp [hni])
      have hout2 : t < i + 1 ∨ (i + 1) + rest.length ≤ t := by
        rcases hout with h | h
        · exact Or.inl (by omega)
        · simp at h
          exact Or.inr (by omega)
      rw [ih hrest (i + 1) hout2]
      show (paste canvas img _ _).pix _ _ = canvas.pix _ _
      unfold paste
      simp only
      rw [if_neg]
      rintro ⟨hx1, hx2, hy1, hy2, hbw, hbh⟩
      have hit : i ≠ t := by
        rcases hout with h | h
        · omega
        · simp at h
          omega
      have hs : w ≤ w + BORDER_SIZE := by omega
      have hsh : h ≤ h + BORDER_SIZE := by omega
      rw [hW] at hx2
      rw [hH] at hy2
      have hc : t % C = i % C := cell_unique hs hu rfl hx1 hx2
      have hr : t / C = i / C := cell_unique hsh hv rfl hy1 hy2
      have h1 := Nat.div_add_mod t C
      have h2 := Nat.div_add_mod i C
      rw [hc, hr] at h1
      exact hit (by omega)

theorem placeImages_pix_hit (R C w h : Nat)
    (imgs : List (String × PImage))
    (huni : ∀ ni ∈ imgs, ni.2.width = w ∧ ni.2.height = h)
    (i t u v : Nat) (hu : u < w) (hv : v < h)
    (hit : i ≤ t) (hlt : t - i < imgs.length) (htRC : t < R * C)
    (canvas : PImage)
    (hcw : canvas.width = C * w + (C - 1) * BORDER_SIZE)
    (hch : canvas.height = R * h + (R - 1) * BORDER_SIZE) :
    (placeImages R C w h i imgs canvas).pix
        ((t % C) * (w + BORDER_SIZE) + u) ((t / C) * (h + BORDER_SIZE) + v) =
      (imgs.get ⟨t - i, hlt⟩).2.pix u v := by
  induction imgs generalizing i canvas with
  | nil => simp at hlt
  | cons im rest ih =>
    obtain ⟨nm, img⟩ := im
    rw [placeImages]
    have hguard : ¬ (R * C ≤ i) := by omega
    rw [if_neg hguard]
    have hW : img.width = w := (huni (nm, img) (by simp)).1
    have hH : img.height = h := (huni (nm, img) (by simp)).2
    have hrest : ∀ ni ∈ rest, ni.2.width = w ∧ ni.2.height = h := by
      intro ni hni
      exact huni ni (by simp [hni])
    have hCpos : 0 < C := by
      by_contra hc0
      simp at hc0
      subst hc0
      simp at htRC
    by_cases hti : t = i
    · subst hti
      simp only [Nat.sub_self]
      rw [placeImages_pix_untouched R C w h rest hrest (t + 1) t u v hu hv
        (Or.inl (by omega))]
      show (paste canvas img _ _).pix _ _ = img.pix u v
      unfold paste
      simp only
      rw [if_pos]
      · have e1 : (t % C) * (w + BORDER_SIZE) + u - (t % C) * (w + BORDER_SIZE) = u := by
          omega
        have e2 : (t / C) * (h + BORDER_SIZE) + v - (t / C) * (h + BORDER_SIZE) = v := by
          omega
        rw [e1, e2]
      · refine ⟨Nat.le_add_right _ _, by rw [hW]; omega, Nat.le_add_right _ _,
          by rw [hH]; omega, ?_, ?_⟩
        · rw [hcw]
          have hmc : t % C ≤ C - 1 := by
            have := Nat.mod_lt t hCpos
            omega
          have hb1 : (t % C) * (w + BORDER_SIZE) ≤ (C - 1) * (w + BORDER_SIZE) :=
            Nat.mul_le_mul_right _ hmc
          obtain ⟨C2, rfl⟩ : ∃ C2, C = C2 + 1 := ⟨C - 1, by omega⟩
          have hb2 : (C2 + 1 - 1) * (w + BORDER_SIZE) = C2 * w + C2 * BORDER_SIZE := by
            simp
            ring
          have hb3 : (C2 + 1) * w = C2 * w + w := by ring
          simp only [Nat.add_sub_cancel] at hb1 hb2 ⊢
          omega
        · rw [hch]
          have hRpos : 0 < R := by
            by_contra hr0
            simp at hr0
            subst hr0
            simp at htRC
          have hmr : t / C ≤ R - 1 := by
            have : t / C < R := by
              rw [Nat.div_lt_iff_lt_mul hCpos]
              omega
            omega
          have hb1 : (t / C) * (h + BORDER_SIZE) ≤ (R - 1) * (h + BORDER_SIZE) :=
            Nat.mul_le_mul_right _ hmr
          obtain ⟨R2, rfl⟩ : ∃ R2, R = R2 + 1 := ⟨R - 1, by omega⟩
          have hb2 : (R2 + 1 - 1) * (h + BORDER_SIZE) = R2 * h + R2 * BORDER_SIZE := by
            simp
            ring
          have hb3 : (R2 + 1) * h = R2 * h + h := by ring
          simp only [Nat.add_sub_cancel] at hb1 hb2 ⊢
          omega
    · have hlen2 : t - (i + 1) < rest.length := by
        simp at hlt
        omega
      rw [ih hrest (i + 1) (by omega) hlen2 (paste canvas img _ _) hcw hch]
      have e3 : (⟨t - i, hlt⟩ : Fin (((nm, img) :: rest).length)) =
          ⟨(t - (i + 1)) + 1, by simp; omega⟩ := by
        apply Fin.ext
        simp
        omega
      rw [e3]
      rfl

theorem placeImages_width (R C w h : Nat) (imgs : List (String × PImage)) (i : Nat)
    (canvas : PImage) : (placeImages R C w h i imgs canvas).width = canvas.width := by
  induction imgs generalizing i canvas with
  | nil => rfl
  | cons im rest ih =>
    obtain ⟨nm, img⟩ := im
    rw [placeImages]
    split
    · rfl
    · rw [ih]
      rfl

theorem placeImages_height (R C w h : Nat) (imgs : List (String × PImage)) (i : Nat)
    (canvas : PImage) : (placeImages R C w h i imgs canvas).height = canvas.height := by
  induction imgs generalizing i canvas with
  | nil => rfl
  | cons im rest ih =>
    obtain ⟨nm, img⟩ := im
    rw [placeImages]
    split
    · rfl
    · rw [ih]
      rfl

/-- C8 (amended): for every non-empty list of annotated images all sharing the
first image's dimensions `(w, h)` and every grid shape R×C (R, C ≥ 1),
`stitch_images` yields a canvas of exactly `C·w + (C−1)·10` by
`R·h + (R−1)·10` pixels, places image `i` (for each `i < R·C`) with its
top-left corner at `((i mod C)·(w+10), (i div C)·(h+10))` — so column
`i mod C`, row `i div C`, with a 10-pixel border between cells — and leaves
every pixel of a cell with no image at the default white background.  (The
uniform-dimensions proviso is forced by the counterexample: an oversized
image bleeds into neighbouring cells.) -/
theorem C8_stitch_images_grid (name0 : String) (img0 : PImage)
    (rest : List (String × PImage)) (grid_rows grid_cols : Nat)
    (hR : 1 ≤ grid_rows) (hC : 1 ≤ grid_cols)
    (huni : ∀ ni ∈ (name0, img0) :: rest,
      ni.2.width = img0.width ∧ ni.2.height = img0.height) :
    ∃ result : PImage,
      stitch_images ((name0, img0) :: rest) grid_rows grid_cols = some result ∧
      result.width = grid_cols * img0.width + (grid_cols - 1) * BORDER_SIZE ∧
      result.height = grid_rows * img0.height + (grid_rows - 1) * BORDER_SIZE ∧
      (∀ (t u v : Nat) (hlen : t < ((name0, img0) :: rest).length),
        t < grid_rows * grid_cols → u < img0.width → v < img0.height →
        result.pix ((t % grid_cols) * (img0.width + BORDER_SIZE) + u)
            ((t / grid_cols) * (img0.height + BORDER_SIZE) + v) =
          (((name0, img0) :: rest).get ⟨t, hlen⟩).2.pix u v) ∧
      (∀ t u v : Nat, ((name0, img0) :: rest).length ≤ t → t < grid_rows * grid_cols →
        u < img0.width → v < img0.height →
        result.pix ((t % grid_cols) * (img0.width + BORDER_SIZE) + u)
            ((t / grid_cols) * (img0.height + BORDER_SIZE) + v) = whitePixel) := by
  refine ⟨_, rfl, ?_, ?_, ?_, ?_⟩
  · rw [placeImages_width]
  · rw [placeImages_height]
  · intro t u v hlen htRC hu hv
    exact placeImages_pix_hit grid_rows grid_cols img0.width img0.height _ huni 0 t u v
      hu hv (Nat.zero_le t) (by simpa using hlen) htRC _ rfl rfl
  · intro t u v hlen htRC hu hv
    rw [placeImages_pix_untouched grid_rows grid_cols img0.width img0.height _ huni 0 t u v
      hu hv (Or.inr (by simpa using hlen)) _]

/-- Witness for C8: one 1×1 image on a 2×1 grid; the canvas is 1×12, the
image's pixel occupies cell 0, and the empty cell 1 stays white. -/
theorem C8_stitch_images_grid_witness :
    ∃ result : PImage,
      stitch_images [("a", ⟨1, 1, fun _ _ => 5⟩)] 2 1 = some result ∧
      result.width = 1 * 1 + (1 - 1) * BORDER_SIZE ∧
      result.height = 2 * 1 + (2 - 1) * BORDER_SIZE ∧
      (∀ (t u v : Nat) (hlen : t < [("a", (⟨1, 1, fun _ _ => 5⟩ : PImage))].length),
        t < 2 * 1 → u < 1 → v < 1 →
        result.pix ((t % 1) * (1 + BORDER_SIZE) + u) ((t / 1) * (1 + BORDER_SIZE) + v) =
          ([("a", (⟨1, 1, fun _ _ => 5⟩ : PImage))].get ⟨t, hlen⟩).2.pix u v) ∧
      (∀ t u v : Nat, [("a", (⟨1, 1, fun _ _ => 5⟩ : PImage))].length ≤ t → t < 2 * 1 →
        u < 1 → v < 1 →
        result.pix ((t % 1) * (1 + BORDER_SIZE) + u) ((t / 1) * (1 + BORDER_SIZE) + v) =
          whitePixel) :=
  C8_stitch_images_grid "a" ⟨1, 1, fun _ _ => 5⟩ [] 2 1 (by omega) (by omega)
    (by
      intro ni hni
      simp at hni
      subst hni
      exact ⟨rfl, rfl⟩)

